import Mathlib

/-!
Verification development for the Bermuda BLE integration
(`custom_components/bermuda/__init__.py`).

The Python module is shallowly embedded below.  Python `dict`s (which keep
insertion order and replace values in place) are modelled as association
lists with uniquely-occurring keys maintained by `aset`; Python `float`s are
modelled as real numbers; Python's `None` on optional fields is `Option`.
A Python method that mutates `self` becomes a function returning the updated
record; the Home-Assistant callbacks that only perform external I/O (logging,
calling the `device_tracker.see` service) are dropped from the state they do
not touch.
-/

namespace Bermuda

/-! ### Association-list helpers (Python `dict` semantics) -/

/-- Lookup in an association list (`k in d` / `d[k]`). -/
def alookup {α : Type} (k : String) : List (String × α) → Option α
  | [] => none
  | (k₂, v) :: rest => if k₂ = k then some v else alookup k rest

/-- Python `d[k] = v`: replace the value in place if the key is present
(keeping its position, as Python dicts do), append otherwise. -/
def aset {α : Type} (k : String) (v : α) : List (String × α) → List (String × α)
  | [] => [(k, v)]
  | (k₂, v₂) :: rest => if k₂ = k then (k, v) :: rest else (k₂, v₂) :: aset k v rest

/-- Apply `f` to the value stored under `k` (Python mutation of the object
`d[k]` refers to), leaving every other entry alone. -/
def update_at {α : Type} (k : String) (f : α → α) (l : List (String × α)) :
    List (String × α) :=
  l.map fun p => if p.1 = k then (p.1, f p.2) else p

/-- Run `f` over a list, stopping at the first failure (the effect of an
exception escaping a Python `for` loop). -/
def mapOrFail {α β : Type} (f : α → Option β) : List α → Option (List β)
  | [] => some []
  | a :: t =>
    match f a with
    | none => none
    | some b =>
      match mapOrFail f t with
      | none => none
      | some bs => some (b :: bs)

/-- How many entries of the association list carry the key `k`. -/
def countKey {α : Type} (k : String) : List (String × α) → Nat
  | [] => 0
  | (k₂, _) :: rest => (if k₂ = k then 1 else 0) + countKey k rest

/-! ### External helpers used by the module -/

/-- Python `str.lower()` (characterwise, which agrees with it on the ASCII
identifiers and MAC addresses this module handles). -/
def strLower (s : String) : String := (s.data.map Char.toLower).asString

/-- Python `str.upper()` (characterwise, see `strLower`). -/
def strUpper (s : String) : String := (s.data.map Char.toUpper).asString

/-- Join a list of characters into colon-separated pairs
(`":".join(to_test.lower()[i : i + 2] for i in range(0, 12, 2))`). -/
def colonJoinPairs : List Char → String
  | a :: b :: c :: rest => String.mk [a, b, ':'] ++ colonJoinPairs (c :: rest)
  | l => String.mk l

/-- Modelled from the spec: the external address-normalisation helper
(`homeassistant.helpers.device_registry.format_mac`, not part of this
repository), which maps the casing/separator variants of a MAC address to one
canonical lower-case colon-separated key and returns unrecognised input
unchanged. -/
def format_mac (mac : String) : String :=
  let to_test := mac
  if to_test.length = 17 ∧ to_test.toList.count ':' = 5 then
    strLower to_test
  else
    let to_test :=
      if to_test.length = 17 ∧ to_test.toList.count '-' = 5 then
        (to_test.toList.filter (fun c => c ≠ '-')).asString
      else if to_test.length = 14 ∧ to_test.toList.count '.' = 2 then
        (to_test.toList.filter (fun c => c ≠ '.')).asString
      else to_test
    if to_test.length = 12 then
      colonJoinPairs (strLower to_test).data
    else mac

/-- Modelled from the spec: the external `slugify` helper; only used to build
generated fallback names, never inspected by the module's logic. -/
def slugify (s : String) : String :=
  ((strLower s).data.map fun c => if c.isAlphanum then c else '_').asString

/-- Modelled from the spec: the integration namespace constant (`DOMAIN`
from the `const` module, which is not under `src/`). -/
def DOMAIN : String := "bermuda"

/-- Python `a or b` for optional strings: `a` unless it is falsy
(`None` or the empty string). -/
def pyOr (a b : Option String) : Option String :=
  match a with
  | some s => if s = "" then b else some s
  | none => b

/-! ### Inputs from the bluetooth component (external interface) -/

/-- The advertisement half of a `BluetoothScannerDevice`. -/
structure AdvertisementData where
  rssi : ℝ
  tx_power : ℝ
  local_name : Option String := none
  service_data : List (String × List Nat) := []

/-- The scanner half of a `BluetoothScannerDevice`.
`discovered_device_timestamps` is `none` when the scanner object has no
`_discovered_device_timestamps` attribute (a local usb adaptor rather than a
remote scanner); its keys are upper-cased MAC addresses. -/
structure ScannerInfo where
  name : String := ""
  adapter : String := ""
  source : String
  discovered_device_timestamps : Option (List (String × ℝ)) := none

/-- One entry of `bluetooth.async_scanner_devices_by_address`. -/
structure BluetoothScannerDevice where
  scanner : ScannerInfo
  advertisement : AdvertisementData

/-- Modelled from the spec: an entry of the external topology directory
(`hass.data["device_registry"].devices`), with the connection, area and
naming fields `_refresh_scanners` reads. -/
structure DeviceEntry where
  connections : List (String × String) := []
  area_id : Option String := none
  id : Option String := none
  name_by_user : Option String := none
  name : Option String := none

/-- One record of `bluetooth.async_discovered_service_info`, restricted to the
fields `_async_update_data` reads. -/
structure ServiceInfo where
  address : String
  device_name : Option String := none
  advertisement_local_name : Option String := none
  manufacturer : Option String := none
  connectable : Bool := false

/-! ### The distance estimator -/

/-- `rssi_to_metres`: convert an instant rssi value to a distance in metres,
`10 ** ((ref_power - rssi) / (10 * attenuation))` with the module's fixed
calibration constants. -/
noncomputable def rssi_to_metres (rssi : ℝ) : ℝ :=
  let attenuation : ℝ := 3.0
  let ref_power : ℝ := -55.0
  let distance := (10 : ℝ) ^ ((ref_power - rssi) / (10 * attenuation))
  distance

/-! ### Devices and observations -/

/-- The value stored in `device.area_name`: `areas[0]` when the external
lookup yields exactly one name, otherwise the raw lookup result. -/
inductive AreaName where
  | scalar : String → AreaName
  | raw : List String → AreaName
deriving DecidableEq

/-- `BermudaDeviceScanner`: details from a scanner relevant to a specific
device. -/
structure BermudaDeviceScanner where
  name : String
  area_id : Option String
  adapter : String
  source : String
  rssi : ℝ
  tx_power : ℝ
  rssi_distance : ℝ
  adverts : List (String × List Nat)
  stamp : ℝ

/-- `BermudaDeviceScanner.__init__`.  The stamp is looked up in the scanner's
timestamp history under the upper-cased device address; a scanner without a
history, or a history missing the device, yields the sentinel `0`. -/
noncomputable def BermudaDeviceScanner.build (device_address : String)
    (scandata : BluetoothScannerDevice) (area_id : Option String) :
    BermudaDeviceScanner :=
  { name := scandata.scanner.name
    area_id := area_id
    adapter := scandata.scanner.adapter
    source := scandata.scanner.source
    rssi := scandata.advertisement.rssi
    tx_power := scandata.advertisement.tx_power
    rssi_distance := rssi_to_metres scandata.advertisement.rssi
    adverts := scandata.advertisement.service_data
    stamp :=
      match scandata.scanner.discovered_device_timestamps with
      | some stamps =>
        let uppermac := strUpper device_address
        match alookup uppermac stamps with
        | some stamp => stamp
        | none => 0
      | none => 0 }

/-- `BermudaDevice.__init__`: the initial (empty) data; every field default
below is the constructor's initial value. -/
structure BermudaDevice where
  address : Option String := none
  unique_id : Option String := none
  name : Option String := none
  local_name : Option String := none
  prefname : Option String := none
  area_id : Option String := none
  area_name : Option AreaName := none
  area_distance : Option ℝ := none
  zone : Option String := none
  manufacturer : Option String := none
  connectable : Bool := false
  is_scanner : Bool := false
  entry_id : Option String := none
  send_tracker_see : Bool := false
  create_sensor : Bool := false
  last_seen : ℝ := 0
  scanners : List (String × BermudaDeviceScanner) := []

/-- `BermudaDevice.add_scanner`: add/replace a scanner entry on this device,
then raise `last_seen` if the new stamp is later.  (The source reads
`self.address`, which is always set by `_get_or_create_device` before any
sighting is recorded; the `getD ""` covers Python's unreachable `None`.) -/
noncomputable def BermudaDevice.add_scanner (self : BermudaDevice)
    (scanner_device : BermudaDevice) (discoveryinfo : BluetoothScannerDevice) :
    BermudaDevice :=
  let newscanner :=
    BermudaDeviceScanner.build (self.address.getD "") discoveryinfo
      scanner_device.area_id
  let self₂ :=
    { self with
      scanners :=
        aset (format_mac (scanner_device.address.getD "")) newscanner
          self.scanners }
  if self₂.last_seen < newscanner.stamp then
    { self₂ with last_seen := newscanner.stamp }
  else self₂

/-! ### The coordinator -/

/-- `BermudaDataUpdateCoordinator.__init__`, restricted to the state the
claims touch: the device registry and the two (to-be-configurable)
settings.  The external collaborators held on `self` (`hass`, the area
registry `self.ar`) are passed to the methods that read them. -/
structure BermudaDataUpdateCoordinator where
  devices : List (String × BermudaDevice) := []
  max_area_radius : ℝ := 3.0
  timeout_not_home : ℝ := 60

namespace BermudaDataUpdateCoordinator

/-- `_get_device`: search for a device entry based on mac address. -/
def get_device (self : BermudaDataUpdateCoordinator) (address : String) :
    Option BermudaDevice :=
  let mac := format_mac address
  alookup mac self.devices

/-- `_get_or_create_device`: the found device, or a freshly initialised one
stored (and returned) with its canonical address. -/
def get_or_create_device (self : BermudaDataUpdateCoordinator)
    (address : String) : BermudaDevice × BermudaDataUpdateCoordinator :=
  match self.get_device address with
  | some device => (device, self)
  | none =>
    let mac := format_mac address
    let device : BermudaDevice := { address := some mac, unique_id := some mac }
    (device, { self with devices := aset mac device self.devices })

/-- `_refresh_scanners`: walk the external device registry and flag every
entry whose mac/bluetooth connection matches one of the given scanners'
sources as a scanner device, copying its area and naming fields. -/
def refresh_scanners (self : BermudaDataUpdateCoordinator)
    (registry : List DeviceEntry) (scanners : List BluetoothScannerDevice) :
    BermudaDataUpdateCoordinator :=
  let addresses := scanners.map fun s => strUpper s.scanner.source
  if addresses.length > 0 then
    registry.foldl
      (fun c dev_entry =>
        dev_entry.connections.foldl
          (fun c dev_connection =>
            if dev_connection.1 = "mac" ∨ dev_connection.1 = "bluetooth" then
              let found_address := strUpper dev_connection.2
              if found_address ∈ addresses then
                let r := c.get_or_create_device found_address
                { r.2 with
                  devices :=
                    update_at (format_mac found_address)
                      (fun scandev =>
                        { scandev with
                          area_id := dev_entry.area_id
                          entry_id := dev_entry.id
                          name :=
                            match dev_entry.name_by_user with
                            | some n => some n
                            | none => dev_entry.name
                          is_scanner := true })
                      r.2.devices }
              else c
            else c)
          c)
      self
  else self

/-- `_send_device_tracker_see`, restricted to its effect on the device: the
zone is `"home"` iff the device has been seen more recently than
`timeout_not_home` seconds before `now` (`MONOTONIC_TIME()`); the call to the
external `device_tracker.see` service carries no device state. -/
noncomputable def send_device_tracker_see (self : BermudaDataUpdateCoordinator)
    (now : ℝ) (device : BermudaDevice) : BermudaDevice :=
  if now - self.timeout_not_home < device.last_seen then
    { device with zone := some "home" }
  else
    { device with zone := some "not_home" }

/-- One step of the `closest_scanner` whittling loop in
`_refresh_area_by_min_distance`. -/
noncomputable def closest_step (max_area_radius : ℝ)
    (closest : Option BermudaDeviceScanner) (scanner : BermudaDeviceScanner) :
    Option BermudaDeviceScanner :=
  if scanner.rssi_distance < max_area_radius then
    match closest with
    | none => some scanner
    | some c =>
      if scanner.rssi_distance < c.rssi_distance then some scanner else some c
  else closest

/-- `_refresh_area_by_min_distance`: area setting by the closest scanner
within `max_area_radius`.  The leading `assert device.is_scanner is not True`
is modelled as the `none` result; `ar` is the external area-name lookup
(`self.ar.async_get_area(area_id).name`), read per the spec as yielding the
list of names for an area id. -/
noncomputable def refresh_area_by_min_distance
    (self : BermudaDataUpdateCoordinator) (ar : Option String → List String)
    (device : BermudaDevice) : Option BermudaDevice :=
  if device.is_scanner = true then none
  else
    let closest_scanner :=
      (device.scanners.map Prod.snd).foldl (closest_step self.max_area_radius)
        none
    match closest_scanner with
    | some closest =>
      let device := { device with area_id := closest.area_id }
      let areas := ar device.area_id
      let device :=
        if areas.length = 1 then
          { device with area_name := some (AreaName.scalar (areas.headD "")) }
        else
          { device with area_name := some (AreaName.raw areas) }
      some { device with area_distance := some closest.rssi_distance }
    | none =>
      some
        { device with area_id := none, area_name := none, area_distance := none }

/-- `_refresh_areas_by_min_distance`: set the area for all non-scanner
devices; `none` when the per-device assertion fires. -/
noncomputable def refresh_areas_by_min_distance
    (self : BermudaDataUpdateCoordinator) (ar : Option String → List String) :
    Option BermudaDataUpdateCoordinator :=
  (mapOrFail (fun p =>
      if p.2.is_scanner ≠ true then
        (self.refresh_area_by_min_distance ar p.2).map fun d => (p.1, d)
      else some p) self.devices).map
    fun ds => { self with devices := ds }

/-- The body of `for discovered in matched_scanners` in `_async_update_data`:
look the scanner up, refreshing the roster once if it is unknown; if it is
still unknown, log and skip the sighting (the device under `key` is left
untouched), else record the sighting on the device under `key`. -/
noncomputable def process_discovered (key : String)
    (registry : List DeviceEntry) (matched_scanners : List BluetoothScannerDevice)
    (c : BermudaDataUpdateCoordinator) (discovered : BluetoothScannerDevice) :
    BermudaDataUpdateCoordinator :=
  let c :=
    match c.get_device discovered.scanner.source with
    | none => c.refresh_scanners registry matched_scanners
    | some _ => c
  match c.get_device discovered.scanner.source with
  | none => c
  | some scanner_device =>
    { c with
      devices :=
        update_at key (fun d => d.add_scanner scanner_device discovered)
          c.devices }

/-- The body of `for service_info in ...` in `_async_update_data`: get/create
the device, refresh its naming fields, work through the scanner sightings,
and classify the zone of allow-listed devices. -/
noncomputable def process_service_info (self : BermudaDataUpdateCoordinator)
    (registry : List DeviceEntry) (now : ℝ) (si : ServiceInfo)
    (matched_scanners : List BluetoothScannerDevice) :
    BermudaDataUpdateCoordinator :=
  let r := self.get_or_create_device si.address
  let device := r.1
  let c := r.2
  let device :=
    { device with
      name := pyOr device.name si.device_name
      local_name := pyOr device.local_name si.advertisement_local_name
      manufacturer := pyOr device.manufacturer si.manufacturer
      connectable := si.connectable }
  let device :=
    if device.prefname = none ∨
        (device.prefname.getD "").startsWith (DOMAIN ++ "_") then
      { device with
        prefname :=
          pyOr (pyOr device.name device.local_name)
            (some (DOMAIN ++ "_" ++ slugify (device.address.getD ""))) }
    else device
  let key := format_mac si.address
  let c := { c with devices := aset key device c.devices }
  let c := matched_scanners.foldl (process_discovered key registry matched_scanners) c
  let c :=
    { c with
      devices :=
        update_at key
          (fun d =>
            if strUpper (d.address.getD "") ∈
                ["EE:E8:37:9F:6B:54", "C7:B8:C6:B0:27:11", "A4:C1:38:C8:58:91"] then
              { d with send_tracker_see := true, create_sensor := true }
            else d)
          c.devices }
  let c :=
    { c with
      devices :=
        update_at key
          (fun d =>
            if d.send_tracker_see = true then c.send_device_tracker_see now d
            else d)
          c.devices }
  c

/-- `_async_update_data`: one tick over the advertisement snapshot (each
service info paired with its `async_scanner_devices_by_address` result),
followed by the all-devices area refresh. -/
noncomputable def async_update_data (self : BermudaDataUpdateCoordinator)
    (registry : List DeviceEntry) (now : ℝ)
    (infos : List (ServiceInfo × List BluetoothScannerDevice))
    (ar : Option String → List String) :
    Option BermudaDataUpdateCoordinator :=
  let c :=
    infos.foldl (fun c p => c.process_service_info registry now p.1 p.2) self
  c.refresh_areas_by_min_distance ar

end BermudaDataUpdateCoordinator

/-! ## Concrete instances used by witnesses and counterexamples -/

/-- An observation recorded with stamp 5. -/
noncomputable def obsStampFive : BermudaDeviceScanner :=
  { name := "kitchen-proxy", area_id := some "area_kitchen", adapter := "hci0",
    source := "aa:bb:cc:dd:ee:ff", rssi := -60, tx_power := 0,
    rssi_distance := 2, adverts := [], stamp := 5 }

/-- A tracked device that has been seen by one scanner, stamp 5. -/
noncomputable def deviceC4 : BermudaDevice :=
  { address := some "11:22:33:44:55:66", unique_id := some "11:22:33:44:55:66",
    last_seen := 5, scanners := [("aa:bb:cc:dd:ee:ff", obsStampFive)] }

/-- The scanner-role device the sighting came from. -/
noncomputable def scannerDeviceC4 : BermudaDevice :=
  { address := some "aa:bb:cc:dd:ee:ff", is_scanner := true,
    area_id := some "area_kitchen" }

/-- A fresh sighting whose scanner carries no timestamp history, so the new
observation gets the sentinel stamp 0. -/
noncomputable def discoveryC4 : BluetoothScannerDevice :=
  { scanner := { source := "aa:bb:cc:dd:ee:ff" },
    advertisement := { rssi := -60, tx_power := 0 } }

/-- Same data as `deviceC4`, kept separate for the C9 instance. -/
noncomputable def deviceC9 : BermudaDevice :=
  { address := some "11:22:33:44:55:66", unique_id := some "11:22:33:44:55:66",
    last_seen := 5, scanners := [("aa:bb:cc:dd:ee:ff", obsStampFive)] }

/-- Same data as `scannerDeviceC4`, kept separate for the C9 instance. -/
noncomputable def scannerDeviceC9 : BermudaDevice :=
  { address := some "aa:bb:cc:dd:ee:ff", is_scanner := true,
    area_id := some "area_kitchen" }

/-- Same data as `discoveryC4`, kept separate for the C9 instance. -/
noncomputable def discoveryC9 : BluetoothScannerDevice :=
  { scanner := { source := "aa:bb:cc:dd:ee:ff" },
    advertisement := { rssi := -60, tx_power := 0 } }

/-- A coordinator with an empty registry. -/
noncomputable def coordEmpty : BermudaDataUpdateCoordinator := {}

/-- Scanner A, estimated distance 1.2 m. -/
noncomputable def obsA : BermudaDeviceScanner :=
  { name := "A", area_id := some "area_A", adapter := "hci0",
    source := "0a:00:00:00:00:01", rssi := -60, tx_power := 0,
    rssi_distance := 1.2, adverts := [], stamp := 0 }

/-- Scanner B, estimated distance 2.9 m. -/
noncomputable def obsB : BermudaDeviceScanner :=
  { name := "B", area_id := some "area_B", adapter := "hci0",
    source := "0a:00:00:00:00:02", rssi := -60, tx_power := 0,
    rssi_distance := 2.9, adverts := [], stamp := 0 }

/-- Scanner C, estimated distance 5.0 m. -/
noncomputable def obsC : BermudaDeviceScanner :=
  { name := "C", area_id := some "area_C", adapter := "hci0",
    source := "0a:00:00:00:00:03", rssi := -60, tx_power := 0,
    rssi_distance := 5.0, adverts := [], stamp := 0 }

/-- A device seen at distances `{A: 1.2, B: 2.9, C: 5.0}`. -/
noncomputable def deviceC1 : BermudaDevice :=
  { address := some "11:22:33:44:55:66",
    scanners := [("0a:00:00:00:00:01", obsA), ("0a:00:00:00:00:02", obsB),
      ("0a:00:00:00:00:03", obsC)] }

/-- A coordinator with the default `max_area_radius = 3.0`. -/
noncomputable def coordC1 : BermudaDataUpdateCoordinator := {}

/-- An area-name lookup yielding a single name. -/
def arSingle : Option String → List String := fun _ => ["Kitchen"]

/-- A device seen by one scanner inside the radius (C6 instance). -/
noncomputable def deviceC6 : BermudaDevice :=
  { address := some "22:22:33:44:55:66",
    scanners := [("0a:00:00:00:00:01", obsA)] }

/-- A coordinator for the C6 instance. -/
noncomputable def coordC6 : BermudaDataUpdateCoordinator := {}

/-- An ambiguous area-name lookup yielding two names. -/
def arMulti : Option String → List String := fun _ => ["North Wing", "Kitchen"]

/-- A device known to the registry but never flagged as a scanner. -/
noncomputable def deviceC7 : BermudaDevice :=
  { address := some "aa:bb:cc:dd:ee:ff",
    unique_id := some "aa:bb:cc:dd:ee:ff" }

/-- A coordinator holding just `deviceC7`. -/
noncomputable def coordC7 : BermudaDataUpdateCoordinator :=
  { devices := [("aa:bb:cc:dd:ee:ff", deviceC7)] }

/-- A sighting whose scanner source has no topology-directory entry. -/
noncomputable def discoveredC7 : BluetoothScannerDevice :=
  { scanner := { source := "11:22:33:44:55:66" },
    advertisement := { rssi := -60, tx_power := 0 } }

/-- An ordinary (non-scanner) device record already stored under the
sighting's scanner source — exactly what `_get_or_create_device` creates for
any previously discovered address. -/
noncomputable def strayRecordC7 : BermudaDevice :=
  { address := some "11:22:33:44:55:66", unique_id := some "11:22:33:44:55:66" }

/-- A coordinator holding the tracked device and the stray record under the
scanner's source address. -/
noncomputable def coordC7b : BermudaDataUpdateCoordinator :=
  { devices := [("aa:bb:cc:dd:ee:ff", deviceC7),
      ("11:22:33:44:55:66", strayRecordC7)] }

/-- `c₂` keeps every device of `c` (keyed lookup) with its `scanners` map
unchanged; other fields are free to differ.  This is how "no observation was
recorded for any existing device" is stated. -/
def PreservesScanners (c c₂ : BermudaDataUpdateCoordinator) : Prop :=
  ∀ k d, alookup k c.devices = some d →
    ∃ d₂, alookup k c₂.devices = some d₂ ∧ d₂.scanners = d.scanners

/-! ## Helper lemmas about the association-list operations -/

theorem alookup_aset_self {α : Type} (k : String) (v : α)
    (l : List (String × α)) : alookup k (aset k v l) = some v := by
  induction l with
  | nil => simp [aset, alookup]
  | cons q rest ih =>
    obtain ⟨k₂, v₂⟩ := q
    by_cases hk : k₂ = k
    · simp [aset, hk, alookup]
    · simp [aset, hk, alookup, ih]

theorem alookup_aset_ne {α : Type} (k k₂ : String) (hk : k₂ ≠ k) (v : α)
    (l : List (String × α)) : alookup k₂ (aset k v l) = alookup k₂ l := by
  have hk₂ : k ≠ k₂ := Ne.symm hk
  induction l with
  | nil => simp [aset, alookup, hk₂]
  | cons q rest ih =>
    obtain ⟨k₃, v₃⟩ := q
    by_cases h₃ : k₃ = k
    · subst h₃
      simp [aset, alookup, hk₂]
    · simp [aset, alookup, h₃, ih]

theorem countKey_aset {α : Type} (k : String) (v : α) (l : List (String × α))
    (h : countKey k l ≤ 1) : countKey k (aset k v l) = 1 := by
  induction l with
  | nil => simp [aset, countKey]
  | cons q rest ih =>
    obtain ⟨k₂, v₂⟩ := q
    by_cases hk : k₂ = k
    · subst hk
      have hrest : countKey k₂ rest = 0 := by
        simp [countKey] at h
        omega
      simp [aset, countKey, hrest]
    · have hrest : countKey k rest ≤ 1 := by
        simp [countKey, hk] at h
        omega
      simp [aset, countKey, hk]
      exact ih hrest

theorem mem_aset {α : Type} (p : String × α) (k : String) (v : α)
    (l : List (String × α)) (h : p ∈ aset k v l) : p = (k, v) ∨ p ∈ l := by
  induction l with
  | nil => simpa [aset] using h
  | cons q rest ih =>
    obtain ⟨k₂, v₂⟩ := q
    by_cases hk : k₂ = k
    · simp [aset, hk] at h
      rcases h with h | h
      · exact Or.inl (by simp [h])
      · exact Or.inr (by simp [h])
    · simp [aset, hk] at h
      rcases h with h | h
      · exact Or.inr (by simp [h])
      · rcases ih h with h₂ | h₂
        · exact Or.inl h₂
        · exact Or.inr (List.mem_cons_of_mem _ h₂)

theorem alookup_update_at {α : Type} (k k₂ : String) (f : α → α)
    (l : List (String × α)) :
    alookup k₂ (update_at k f l) =
      if k₂ = k then (alookup k₂ l).map f else alookup k₂ l := by
  induction l with
  | nil => simp [update_at, alookup]
  | cons q rest ih =>
    obtain ⟨k₃, v₃⟩ := q
    have hcons : update_at k f ((k₃, v₃) :: rest) =
        (if k₃ = k then (k₃, f v₃) else (k₃, v₃)) :: update_at k f rest := rfl
    rw [hcons]
    by_cases h₃ : k₃ = k
    · rw [if_pos h₃]
      subst h₃
      simp only [alookup]
      by_cases hk : k₃ = k₂
      · rw [if_pos hk, if_pos hk.symm, if_pos hk]
        rfl
      · rw [if_neg hk, if_neg (fun he => hk he.symm), if_neg hk, ih,
          if_neg (fun he => hk he.symm)]
    · rw [if_neg h₃]
      simp only [alookup]
      by_cases hk : k₃ = k₂
      · subst hk
        rw [if_pos rfl, if_neg h₃, if_pos rfl]
      · rw [if_neg hk, if_neg hk]
        exact ih

/-! ## Helper lemmas about the closest-scanner fold -/

theorem closest_step_some (r : ℝ) (c s : BermudaDeviceScanner) :
    ∃ c₂, BermudaDataUpdateCoordinator.closest_step r (some c) s = some c₂ := by
  unfold BermudaDataUpdateCoordinator.closest_step
  dsimp only
  split_ifs <;> exact ⟨_, rfl⟩

theorem foldl_closest_step_isSome (r : ℝ) (l : List BermudaDeviceScanner)
    (c : BermudaDeviceScanner) :
    ∃ w, l.foldl (BermudaDataUpdateCoordinator.closest_step r) (some c) =
      some w := by
  induction l generalizing c with
  | nil => exact ⟨c, rfl⟩
  | cons s t ih =>
    rw [List.foldl_cons]
    obtain ⟨c₂, hc₂⟩ := closest_step_some r c s
    rw [hc₂]
    exact ih c₂

theorem foldl_closest_step_from_some (r : ℝ) (l : List BermudaDeviceScanner)
    (c w : BermudaDeviceScanner)
    (h : l.foldl (BermudaDataUpdateCoordinator.closest_step r) (some c) =
      some w) :
    (w = c ∧ ∀ x ∈ l, x.rssi_distance < r →
      c.rssi_distance ≤ x.rssi_distance) ∨
    (∃ l₁ l₂, l = l₁ ++ w :: l₂ ∧ w.rssi_distance < r ∧
      w.rssi_distance < c.rssi_distance ∧
      (∀ x ∈ l₁, x.rssi_distance < r →
        w.rssi_distance < x.rssi_distance) ∧
      (∀ x ∈ l₂, x.rssi_distance < r →
        w.rssi_distance ≤ x.rssi_distance)) := by
  induction l generalizing c with
  | nil =>
    simp only [List.foldl_nil, Option.some.injEq] at h
    exact Or.inl ⟨h.symm, by simp⟩
  | cons s t ih =>
    rw [List.foldl_cons] at h
    by_cases hs : s.rssi_distance < r
    · by_cases hsc : s.rssi_distance < c.rssi_distance
      · have hstep : BermudaDataUpdateCoordinator.closest_step r (some c) s =
            some s := by
          simp [BermudaDataUpdateCoordinator.closest_step, hs, hsc]
        rw [hstep] at h
        rcases ih s h with ⟨hw, hall⟩ | ⟨l₁, l₂, heq, hwr, hws, h₁, h₂⟩
        · subst hw
          exact Or.inr ⟨[], t, rfl, hs, hsc, by simp, hall⟩
        · refine Or.inr ⟨s :: l₁, l₂, by rw [heq]; rfl, hwr,
            lt_trans hws hsc, ?_, h₂⟩
          intro x hx hxr
          rcases List.mem_cons.mp hx with rfl | hx₂
          · exact hws
          · exact h₁ x hx₂ hxr
      · have hstep : BermudaDataUpdateCoordinator.closest_step r (some c) s =
            some c := by
          simp [BermudaDataUpdateCoordinator.closest_step, hs, hsc]
        rw [hstep] at h
        rcases ih c h with ⟨hw, hall⟩ | ⟨l₁, l₂, heq, hwr, hwc, h₁, h₂⟩
        · refine Or.inl ⟨hw, ?_⟩
          intro x hx hxr
          rcases List.mem_cons.mp hx with rfl | hx₂
          · exact not_lt.mp hsc
          · exact hall x hx₂ hxr
        · refine Or.inr ⟨s :: l₁, l₂, by rw [heq]; rfl, hwr, hwc, ?_, h₂⟩
          intro x hx hxr
          rcases List.mem_cons.mp hx with rfl | hx₂
          · exact lt_of_lt_of_le hwc (not_lt.mp hsc)
          · exact h₁ x hx₂ hxr
    · have hstep : BermudaDataUpdateCoordinator.closest_step r (some c) s =
          some c := by
        simp [BermudaDataUpdateCoordinator.closest_step, hs]
      rw [hstep] at h
      rcases ih c h with ⟨hw, hall⟩ | ⟨l₁, l₂, heq, hwr, hwc, h₁, h₂⟩
      · refine Or.inl ⟨hw, ?_⟩
        intro x hx hxr
        rcases List.mem_cons.mp hx with rfl | hx₂
        · exact absurd hxr hs
        · exact hall x hx₂ hxr
      · refine Or.inr ⟨s :: l₁, l₂, by rw [heq]; rfl, hwr, hwc, ?_, h₂⟩
        intro x hx hxr
        rcases List.mem_cons.mp hx with rfl | hx₂
        · exact absurd hxr hs
        · exact h₁ x hx₂ hxr

theorem foldl_closest_step_from_none (r : ℝ) (l : List BermudaDeviceScanner) :
    (l.foldl (BermudaDataUpdateCoordinator.closest_step r) none = none ∧
      ∀ x ∈ l, ¬ x.rssi_distance < r) ∨
    (∃ w l₁ l₂,
      l.foldl (BermudaDataUpdateCoordinator.closest_step r) none = some w ∧
      l = l₁ ++ w :: l₂ ∧ w.rssi_distance < r ∧
      (∀ x ∈ l₁, x.rssi_distance < r →
        w.rssi_distance < x.rssi_distance) ∧
      (∀ x ∈ l₂, x.rssi_distance < r →
        w.rssi_distance ≤ x.rssi_distance)) := by
  induction l with
  | nil => exact Or.inl ⟨rfl, by simp⟩
  | cons s t ih =>
    by_cases hs : s.rssi_distance < r
    · have hstep : BermudaDataUpdateCoordinator.closest_step r none s =
          some s := by
        simp [BermudaDataUpdateCoordinator.closest_step, hs]
      obtain ⟨w, hw⟩ := foldl_closest_step_isSome r t s
      rcases foldl_closest_step_from_some r t s w hw with
        ⟨hw₂, hall⟩ | ⟨l₁, l₂, heq, hwr, hws, h₁, h₂⟩
      · subst hw₂
        refine Or.inr ⟨w, [], t, ?_, rfl, hs, by simp, hall⟩
        rw [List.foldl_cons, hstep]
        exact hw
      · refine Or.inr ⟨w, s :: l₁, l₂, ?_, by rw [heq]; rfl, hwr, ?_, h₂⟩
        · rw [List.foldl_cons, hstep]
          exact hw
        · intro x hx hxr
          rcases List.mem_cons.mp hx with rfl | hx₂
          · exact hws
          · exact h₁ x hx₂ hxr
    · have hstep : BermudaDataUpdateCoordinator.closest_step r none s =
          none := by
        simp [BermudaDataUpdateCoordinator.closest_step, hs]
      rcases ih with ⟨hn, hall⟩ | ⟨w, l₁, l₂, hw, heq, hwr, h₁, h₂⟩
      · refine Or.inl ⟨by rw [List.foldl_cons, hstep]; exact hn, ?_⟩
        intro x hx
        rcases List.mem_cons.mp hx with rfl | hx₂
        · exact hs
        · exact hall x hx₂
      · refine Or.inr ⟨w, s :: l₁, l₂, by rw [List.foldl_cons, hstep]; exact hw,
          by rw [heq]; rfl, hwr, ?_, h₂⟩
        intro x hx hxr
        rcases List.mem_cons.mp hx with rfl | hx₂
        · exact absurd hxr hs
        · exact h₁ x hx₂ hxr

theorem list_length_one {l : List String} (h : l.length = 1) :
    l = [l.headD ""] := by
  cases l with
  | nil => simp at h
  | cons a t =>
    cases t with
    | nil => rfl
    | cons b t₂ => simp [List.length_cons] at h

theorem refresh_area_isSome (self : BermudaDataUpdateCoordinator)
    (ar : Option String → List String) (device : BermudaDevice)
    (h : ¬ device.is_scanner = true) :
    ∃ d, self.refresh_area_by_min_distance ar device = some d := by
  unfold BermudaDataUpdateCoordinator.refresh_area_by_min_distance
  rw [if_neg h]
  cases hfold : (device.scanners.map Prod.snd).foldl
      (BermudaDataUpdateCoordinator.closest_step self.max_area_radius) none with
  | none => exact ⟨_, rfl⟩
  | some w =>
    dsimp only
    split_ifs <;> exact ⟨_, rfl⟩

/-! ## Helper lemmas about the roster refresh -/

theorem pres_refl (c : BermudaDataUpdateCoordinator) : PreservesScanners c c :=
  fun _ d h => ⟨d, h, rfl⟩

theorem pres_trans {a b c : BermudaDataUpdateCoordinator}
    (h₁ : PreservesScanners a b) (h₂ : PreservesScanners b c) :
    PreservesScanners a c := by
  intro k d h
  obtain ⟨d₂, hd₂, hs₂⟩ := h₁ k d h
  obtain ⟨d₃, hd₃, hs₃⟩ := h₂ k d₂ hd₂
  exact ⟨d₃, hd₃, hs₃.trans hs₂⟩

theorem pres_foldl {β : Type} (step : BermudaDataUpdateCoordinator → β →
      BermudaDataUpdateCoordinator) (l : List β)
    (hstep : ∀ c x, PreservesScanners c (step c x)) :
    ∀ c, PreservesScanners c (l.foldl step c) := by
  induction l with
  | nil => intro c; exact pres_refl c
  | cons x t ih => intro c; exact pres_trans (hstep c x) (ih (step c x))

theorem pres_get_or_create (c : BermudaDataUpdateCoordinator) (addr : String) :
    PreservesScanners c (c.get_or_create_device addr).2 := by
  intro k d h
  unfold BermudaDataUpdateCoordinator.get_or_create_device
    BermudaDataUpdateCoordinator.get_device
  dsimp only
  cases hd : alookup (format_mac addr) c.devices with
  | some d₂ => exact ⟨d, h, rfl⟩
  | none =>
    dsimp only
    have hne : k ≠ format_mac addr := by
      intro he
      subst he
      rw [h] at hd
      cases hd
    rw [alookup_aset_ne _ _ hne]
    exact ⟨d, h, rfl⟩

theorem pres_update_at (c : BermudaDataUpdateCoordinator) (K : String)
    (f : BermudaDevice → BermudaDevice)
    (hf : ∀ d, (f d).scanners = d.scanners) :
    PreservesScanners c { c with devices := update_at K f c.devices } := by
  intro k d h
  dsimp only
  rw [alookup_update_at]
  by_cases hk : k = K
  · rw [if_pos hk, h]
    exact ⟨f d, rfl, hf d⟩
  · rw [if_neg hk]
    exact ⟨d, h, rfl⟩

theorem pres_refresh_scanners (c : BermudaDataUpdateCoordinator)
    (registry : List DeviceEntry) (scanners : List BluetoothScannerDevice) :
    PreservesScanners c (c.refresh_scanners registry scanners) := by
  unfold BermudaDataUpdateCoordinator.refresh_scanners
  dsimp only
  split_ifs with hlen
  · refine pres_foldl _ registry ?_ c
    intro c₂ entry
    refine pres_foldl _ entry.connections ?_ c₂
    intro c₃ conn
    split_ifs with h₁ h₂
    · exact pres_trans (pres_get_or_create c₃ _)
        (pres_update_at _ _ _ fun d => rfl)
    · exact pres_refl _
    · exact pres_refl _
  · exact pres_refl _

/-! ## Claim theorems -/

/-- **C2.** For every rssi, `rssi_to_metres rssi` equals
`10 ^ ((refPower - rssi) / (10 * a))` with the fixed constants
`refPower = -55.0` and `a = 3.0`; in particular it is exactly `1` at
`rssi = -55.0` and exactly `10` at `rssi = -85.0` (and, being a Lean
function, the result depends only on rssi). -/
theorem rssi_to_metres_formula :
    (∀ rssi : ℝ,
        rssi_to_metres rssi = (10 : ℝ) ^ (((-55.0 : ℝ) - rssi) / (10 * 3.0))) ∧
    rssi_to_metres (-55.0) = 1 ∧ rssi_to_metres (-85.0) = 10 := by
  refine ⟨fun rssi => rfl, ?_, ?_⟩
  · show (10 : ℝ) ^ (((-55.0 : ℝ) - -55.0) / (10 * 3.0)) = 1
    rw [show ((-55.0 : ℝ) - -55.0) / (10 * 3.0) = 0 by norm_num, Real.rpow_zero]
  · show (10 : ℝ) ^ (((-55.0 : ℝ) - -85.0) / (10 * 3.0)) = 10
    rw [show ((-55.0 : ℝ) - -85.0) / (10 * 3.0) = 1 by norm_num, Real.rpow_one]

/-- **C8.** `rssi_to_metres` is strictly decreasing in rssi, and there is no
clamping: every positive distance, arbitrarily small or large, is attained. -/
theorem rssi_to_metres_strictly_decreasing :
    (∀ r₁ r₂ : ℝ, r₁ < r₂ → rssi_to_metres r₂ < rssi_to_metres r₁) ∧
    (∀ d : ℝ, 0 < d → ∃ rssi : ℝ, rssi_to_metres rssi = d) := by
  constructor
  · intro r₁ r₂ h
    show (10 : ℝ) ^ (((-55.0 : ℝ) - r₂) / (10 * 3.0)) <
      (10 : ℝ) ^ (((-55.0 : ℝ) - r₁) / (10 * 3.0))
    have h₁ : ((-55.0 : ℝ) - r₂) / (10 * 3.0) <
        ((-55.0 : ℝ) - r₁) / (10 * 3.0) := by
      apply div_lt_div_of_pos_right (by linarith) (by norm_num)
    exact (Real.rpow_lt_rpow_left_iff (by norm_num : (1 : ℝ) < 10)).mpr h₁
  · intro d hd
    refine ⟨-55.0 - (10 * 3.0) * Real.logb 10 d, ?_⟩
    show (10 : ℝ) ^
        (((-55.0 : ℝ) - (-55.0 - (10 * 3.0) * Real.logb 10 d)) / (10 * 3.0)) = d
    rw [show ((-55.0 : ℝ) - (-55.0 - (10 * 3.0) * Real.logb 10 d)) / (10 * 3.0)
          = Real.logb 10 d by ring]
    exact Real.rpow_logb (by norm_num) (by norm_num) hd

/-- **C3.** The zone classifier assigns `"home"` exactly when
`now - last_seen < timeout_not_home` and `"not_home"` otherwise; the boundary
is exclusive, so at `now - last_seen = timeout_not_home` the zone is
`"not_home"`. -/
theorem send_device_tracker_see_zone (self : BermudaDataUpdateCoordinator)
    (now : ℝ) (device : BermudaDevice) :
    ((self.send_device_tracker_see now device).zone = some "home" ↔
      now - device.last_seen < self.timeout_not_home) ∧
    ((self.send_device_tracker_see now device).zone = some "not_home" ↔
      ¬ now - device.last_seen < self.timeout_not_home) := by
  have key : now - self.timeout_not_home < device.last_seen ↔
      now - device.last_seen < self.timeout_not_home := by
    constructor <;> intro h <;> linarith
  unfold BermudaDataUpdateCoordinator.send_device_tracker_see
  split_ifs with h
  · rw [key] at h
    simp [h]
  · rw [key] at h
    simp [h]

/-- **C4 (amended).** `add_scanner` keeps exactly one observation per scanner
address key (a second sighting from the same scanner replaces the prior
observation wholesale and leaves every other key untouched), and after every
sighting `last_seen = max (previous last_seen) (new stamp)` — hence an upper
bound of every stored stamp, but not necessarily the maximum stamp currently
stored (see the counterexample). -/
theorem add_scanner_replace_spec (device scanner_device : BermudaDevice)
    (discoveryinfo : BluetoothScannerDevice)
    (h : countKey (format_mac (scanner_device.address.getD ""))
      device.scanners ≤ 1) :
    countKey (format_mac (scanner_device.address.getD ""))
        (device.add_scanner scanner_device discoveryinfo).scanners = 1 ∧
    alookup (format_mac (scanner_device.address.getD ""))
        (device.add_scanner scanner_device discoveryinfo).scanners =
      some (BermudaDeviceScanner.build (device.address.getD "") discoveryinfo
        scanner_device.area_id) ∧
    (∀ k₂, k₂ ≠ format_mac (scanner_device.address.getD "") →
      alookup k₂ (device.add_scanner scanner_device discoveryinfo).scanners =
        alookup k₂ device.scanners) ∧
    (device.add_scanner scanner_device discoveryinfo).last_seen =
      max device.last_seen
        (BermudaDeviceScanner.build (device.address.getD "") discoveryinfo
          scanner_device.area_id).stamp := by
  unfold BermudaDevice.add_scanner
  dsimp only
  split_ifs with hlt
  · exact ⟨countKey_aset _ _ _ h, alookup_aset_self _ _ _,
      fun k₂ hk => alookup_aset_ne _ _ hk _ _,
      (max_eq_right hlt.le).symm⟩
  · exact ⟨countKey_aset _ _ _ h, alookup_aset_self _ _ _,
      fun k₂ hk => alookup_aset_ne _ _ hk _ _,
      (max_eq_left (not_lt.mp hlt)).symm⟩

/-- **C4, witness.** The replace behaviour evaluated on a concrete device. -/
theorem add_scanner_replace_spec_witness :
    countKey (format_mac (scannerDeviceC4.address.getD ""))
      (deviceC4.add_scanner scannerDeviceC4 discoveryC4).scanners = 1 :=
  (add_scanner_replace_spec deviceC4 scannerDeviceC4 discoveryC4
    (by decide)).1

/-- **C4, counterexample.** A replacing sighting that carries the sentinel
stamp 0 leaves the device with stored stamps `[0]` while `last_seen` stays 5:
after this sighting `last_seen` is **not** the maximum `observedAt` across
the stored observations, refuting the claim as stated. -/
theorem add_scanner_last_seen_not_max_of_stamps :
    ((deviceC4.add_scanner scannerDeviceC4 discoveryC4).scanners.map
        fun p => p.2.stamp) = [0] ∧
    (deviceC4.add_scanner scannerDeviceC4 discoveryC4).last_seen = 5 ∧
    (5 : ℝ) ≠ 0 := by
  have hkey : format_mac "aa:bb:cc:dd:ee:ff" = "aa:bb:cc:dd:ee:ff" := rfl
  refine ⟨?_, ?_, by norm_num⟩ <;>
    norm_num [BermudaDevice.add_scanner, BermudaDeviceScanner.build, deviceC4,
      scannerDeviceC4, discoveryC4, obsStampFive, aset, hkey]

/-- **C9.** `last_seen` is monotone across `add_scanner`: it never decreases,
it stays an upper bound of every stored observation's stamp, and it can
strictly exceed the maximum stored stamp after a replacement with an
older/sentinel stamp. -/
theorem add_scanner_last_seen_monotone :
    (∀ (d sdev : BermudaDevice) (info : BluetoothScannerDevice),
      d.last_seen ≤ (d.add_scanner sdev info).last_seen) ∧
    (∀ (d sdev : BermudaDevice) (info : BluetoothScannerDevice),
      (∀ p ∈ d.scanners, p.2.stamp ≤ d.last_seen) →
      ∀ p ∈ (d.add_scanner sdev info).scanners,
        p.2.stamp ≤ (d.add_scanner sdev info).last_seen) ∧
    (∃ (d sdev : BermudaDevice) (info : BluetoothScannerDevice),
      (∀ p ∈ d.scanners, p.2.stamp ≤ d.last_seen) ∧
      ∀ p ∈ (d.add_scanner sdev info).scanners,
        p.2.stamp < (d.add_scanner sdev info).last_seen) := by
  have hscan : ∀ (d sdev : BermudaDevice) (info : BluetoothScannerDevice),
      (d.add_scanner sdev info).scanners =
        aset (format_mac (sdev.address.getD ""))
          (BermudaDeviceScanner.build (d.address.getD "") info sdev.area_id)
          d.scanners := by
    intro d sdev info
    unfold BermudaDevice.add_scanner
    dsimp only
    split_ifs <;> rfl
  have hmono : ∀ (d sdev : BermudaDevice) (info : BluetoothScannerDevice),
      d.last_seen ≤ (d.add_scanner sdev info).last_seen := by
    intro d sdev info
    unfold BermudaDevice.add_scanner
    dsimp only
    split_ifs with hlt
    · exact hlt.le
    · exact le_refl _
  have hstamp : ∀ (d sdev : BermudaDevice) (info : BluetoothScannerDevice),
      (BermudaDeviceScanner.build (d.address.getD "") info sdev.area_id).stamp ≤
        (d.add_scanner sdev info).last_seen := by
    intro d sdev info
    unfold BermudaDevice.add_scanner
    dsimp only
    split_ifs with hlt
    · exact le_refl _
    · exact not_lt.mp hlt
  refine ⟨hmono, ?_, ?_⟩
  · intro d sdev info hb p hp
    rw [hscan] at hp
    rcases mem_aset p _ _ _ hp with hm | hm
    · rw [hm]
      exact hstamp d sdev info
    · exact le_trans (hb p hm) (hmono d sdev info)
  · refine ⟨deviceC9, scannerDeviceC9, discoveryC9, ?_, ?_⟩
    · intro p hp
      simp [deviceC9] at hp
      rw [hp]
      norm_num [obsStampFive, deviceC9]
    · intro p hp
      have hkey : format_mac "aa:bb:cc:dd:ee:ff" = "aa:bb:cc:dd:ee:ff" := rfl
      rw [hscan] at hp
      norm_num [deviceC9, scannerDeviceC9, discoveryC9, obsStampFive, aset,
        hkey, BermudaDeviceScanner.build] at hp
      rw [hp]
      norm_num [BermudaDevice.add_scanner, BermudaDeviceScanner.build,
        deviceC9, scannerDeviceC9, discoveryC9, obsStampFive, aset, hkey]

/-- **C9, witness.** Monotonicity evaluated on a concrete device. -/
theorem add_scanner_last_seen_monotone_witness :
    deviceC9.last_seen ≤
      (deviceC9.add_scanner scannerDeviceC9 discoveryC9).last_seen :=
  add_scanner_last_seen_monotone.1 deviceC9 scannerDeviceC9 discoveryC9

/-- **C5.** `_get_or_create_device` keys the registry by the normalised
address: two calls with addresses that normalise to the same key return the
same record, a repeated call with an already-present address changes nothing,
and a first call creates a zero-initialised record (role unknown) carrying
only the canonical address. -/
theorem get_or_create_device_spec (c : BermudaDataUpdateCoordinator)
    (a b : String) (h : format_mac a = format_mac b) :
    ((c.get_or_create_device a).2.get_or_create_device b).1 =
      (c.get_or_create_device a).1 ∧
    ((c.get_or_create_device a).2.get_or_create_device b).2 =
      (c.get_or_create_device a).2 ∧
    (c.get_device a = none →
      (c.get_or_create_device a).1 =
        { address := some (format_mac a), unique_id := some (format_mac a) }) ∧
    (∀ d, c.get_device a = some d →
      (c.get_or_create_device a).1 = d ∧ (c.get_or_create_device a).2 = c) := by
  unfold BermudaDataUpdateCoordinator.get_or_create_device
    BermudaDataUpdateCoordinator.get_device
  dsimp only
  rw [← h]
  cases hd : alookup (format_mac a) c.devices with
  | none =>
    dsimp only
    rw [alookup_aset_self]
    exact ⟨rfl, rfl, fun _ => rfl, fun d hd₂ => Option.noConfusion hd₂⟩
  | some d =>
    dsimp only
    rw [hd]
    refine ⟨rfl, rfl, fun hn => Option.noConfusion hn, fun d₂ hd₂ => ?_⟩
    injection hd₂ with hdd
    subst hdd
    exact ⟨rfl, rfl⟩

/-- **C5, witness.** The dash-separated upper-case spelling and the canonical
colon-separated lower-case spelling of one MAC address yield the identical
record. -/
theorem get_or_create_device_spec_witness :
    ((coordEmpty.get_or_create_device "AA-BB-CC-DD-EE-FF").2.get_or_create_device
        "aa:bb:cc:dd:ee:ff").1 =
      (coordEmpty.get_or_create_device "AA-BB-CC-DD-EE-FF").1 :=
  (get_or_create_device_spec coordEmpty "AA-BB-CC-DD-EE-FF" "aa:bb:cc:dd:ee:ff"
    (by decide)).1

/-- **C1.** Area resolution considers exactly the stored observations with
`rssi_distance < max_area_radius`: when none qualifies, `area_id`,
`area_name` and `area_distance` are all cleared; when some qualifies, the
device's `area_id` and `area_distance` come from a qualifying observation `w`
of minimum `rssi_distance`, and `w` is the first such in iteration order
(every earlier qualifying observation is strictly farther). -/
theorem refresh_area_by_min_distance_spec (self : BermudaDataUpdateCoordinator)
    (ar : Option String → List String) (device : BermudaDevice)
    (h : device.is_scanner ≠ true) :
    ∃ d, self.refresh_area_by_min_distance ar device = some d ∧
      ((∀ s ∈ device.scanners.map Prod.snd,
          ¬ s.rssi_distance < self.max_area_radius) →
        d.area_id = none ∧ d.area_name = none ∧ d.area_distance = none) ∧
      ((∃ s ∈ device.scanners.map Prod.snd,
          s.rssi_distance < self.max_area_radius) →
        ∃ l₁ w l₂, device.scanners.map Prod.snd = l₁ ++ w :: l₂ ∧
          w.rssi_distance < self.max_area_radius ∧
          (∀ x ∈ l₁, x.rssi_distance < self.max_area_radius →
            w.rssi_distance < x.rssi_distance) ∧
          (∀ x ∈ l₂, x.rssi_distance < self.max_area_radius →
            w.rssi_distance ≤ x.rssi_distance) ∧
          d.area_id = w.area_id ∧
          d.area_distance = some w.rssi_distance) := by
  unfold BermudaDataUpdateCoordinator.refresh_area_by_min_distance
  rw [if_neg h]
  rcases foldl_closest_step_from_none self.max_area_radius
      (device.scanners.map Prod.snd) with
    ⟨hn, hall⟩ | ⟨w, l₁, l₂, hw, heq, hwr, h₁, h₂⟩
  · rw [hn]
    dsimp only
    refine ⟨_, rfl, fun _ => ⟨rfl, rfl, rfl⟩, fun hex => ?_⟩
    obtain ⟨s, hs, hsr⟩ := hex
    exact absurd hsr (hall s hs)
  · rw [hw]
    dsimp only
    split_ifs with hlen <;>
      exact ⟨_, rfl,
        fun hnone => absurd hwr (hnone w (by
          rw [heq]
          exact List.mem_append_right _ (List.mem_cons_self _ _))),
        fun _ => ⟨l₁, w, l₂, heq, hwr, h₁, h₂, rfl, rfl⟩⟩

/-- **C1, witness.** The resolution succeeds on the concrete device with
distances `{A: 1.2, B: 2.9, C: 5.0}` and the default radius. -/
theorem refresh_area_by_min_distance_spec_witness :
    deviceC1.is_scanner ≠ true ∧
    ∃ d, coordC1.refresh_area_by_min_distance arSingle deviceC1 = some d := by
  refine ⟨by decide, ?_⟩
  obtain ⟨d, hd, -, -⟩ :=
    refresh_area_by_min_distance_spec coordC1 arSingle deviceC1 (by decide)
  exact ⟨d, hd⟩

/-- **C6.** When area resolution finds a winner (`area_distance` set), the
stored `area_name` is determined by the external lookup keyed by the stored
`area_id`: exactly one name is stored as that scalar name, any other arity is
stored as the raw multi-value result, and no error is raised (the result is
always `some`). -/
theorem refresh_area_area_name_spec (self : BermudaDataUpdateCoordinator)
    (ar : Option String → List String) (device : BermudaDevice)
    (h : device.is_scanner ≠ true) :
    ∃ d, self.refresh_area_by_min_distance ar device = some d ∧
      (d.area_distance ≠ none →
        ((ar d.area_id).length = 1 →
          ∃ s₂, ar d.area_id = [s₂] ∧
            d.area_name = some (AreaName.scalar s₂)) ∧
        ((ar d.area_id).length ≠ 1 →
          d.area_name = some (AreaName.raw (ar d.area_id)))) := by
  unfold BermudaDataUpdateCoordinator.refresh_area_by_min_distance
  rw [if_neg h]
  cases hfold : (device.scanners.map Prod.snd).foldl
      (BermudaDataUpdateCoordinator.closest_step self.max_area_radius) none with
  | none =>
    dsimp only
    exact ⟨_, rfl, fun hcontra => absurd rfl hcontra⟩
  | some w =>
    dsimp only
    split_ifs with hlen
    · refine ⟨_, rfl, fun _ => ⟨fun _ => ⟨(ar w.area_id).headD "", ?_, rfl⟩,
        fun hne => absurd hlen hne⟩⟩
      exact list_length_one hlen
    · exact ⟨_, rfl, fun _ => ⟨fun h₁ => absurd h₁ hlen, fun _ => rfl⟩⟩

/-- **C6, witness.** The resolution succeeds on a concrete device under an
ambiguous (two-name) lookup. -/
theorem refresh_area_area_name_spec_witness :
    deviceC6.is_scanner ≠ true ∧
    ∃ d, coordC6.refresh_area_by_min_distance arMulti deviceC6 = some d := by
  refine ⟨by decide, ?_⟩
  obtain ⟨d, hd, -⟩ :=
    refresh_area_area_name_spec coordC6 arMulti deviceC6 (by decide)
  exact ⟨d, hd⟩

/-- **C10.** The all-devices refresh never trips the per-device assertion
(it never yields `none`, because it only resolves devices whose `is_scanner`
flag is not `true`), and every scanner-role device comes through the pass
unchanged — scanner devices are never given area fields. -/
theorem refresh_areas_by_min_distance_spec
    (self : BermudaDataUpdateCoordinator)
    (ar : Option String → List String) :
    ∃ c, self.refresh_areas_by_min_distance ar = some c ∧
      List.Forall₂ (fun p q => p.1 = q.1 ∧ (p.2.is_scanner = true → q = p))
        self.devices c.devices := by
  unfold BermudaDataUpdateCoordinator.refresh_areas_by_min_distance
  suffices hs : ∀ l : List (String × BermudaDevice),
      ∃ ds, mapOrFail (fun p =>
          if p.2.is_scanner ≠ true then
            (self.refresh_area_by_min_distance ar p.2).map fun d => (p.1, d)
          else some p) l = some ds ∧
        List.Forall₂ (fun p q => p.1 = q.1 ∧ (p.2.is_scanner = true → q = p))
          l ds by
    obtain ⟨ds, hds, hrel⟩ := hs self.devices
    exact ⟨_, by rw [hds]; rfl, hrel⟩
  intro l
  induction l with
  | nil => exact ⟨[], rfl, List.Forall₂.nil⟩
  | cons p t ih =>
    obtain ⟨ds, hds, hrel⟩ := ih
    by_cases hp : p.2.is_scanner = true
    · refine ⟨p :: ds, ?_, List.Forall₂.cons ⟨rfl, fun _ => rfl⟩ hrel⟩
      have hfp : (if p.2.is_scanner ≠ true then
            (self.refresh_area_by_min_distance ar p.2).map fun d => (p.1, d)
          else some p) = some p := by simp [hp]
      unfold mapOrFail
      rw [hfp, hds]
    · obtain ⟨d, hd⟩ := refresh_area_isSome self ar p.2 hp
      refine ⟨(p.1, d) :: ds, ?_,
        List.Forall₂.cons ⟨rfl, fun hc => absurd hc hp⟩ hrel⟩
      have hfp : (if p.2.is_scanner ≠ true then
            (self.refresh_area_by_min_distance ar p.2).map fun d => (p.1, d)
          else some p) = some (p.1, d) := by simp [hp, hd]
      unfold mapOrFail
      rw [hfp, hds]

/-- **C7 (amended).** A sighting whose scanner source has no device record —
neither before nor after the roster refresh against the topology directory
(in particular, when the directory has no matching entry and no record
pre-exists) — is skipped: the step leaves the coordinator exactly as the
roster refresh left it, no existing device's observations change (the roster
refresh records no observation), and the fold simply continues with the
remaining sightings — nothing aborts.  (When a record does pre-exist under
the scanner's source, the observation is recorded without consulting the
directory; see the counterexample.) -/
theorem process_discovered_skips_unknown_scanner (key : String)
    (registry : List DeviceEntry) (matched : List BluetoothScannerDevice)
    (c : BermudaDataUpdateCoordinator) (discovered : BluetoothScannerDevice)
    (rest : List BluetoothScannerDevice)
    (h₀ : c.get_device discovered.scanner.source = none)
    (h₁ : (c.refresh_scanners registry matched).get_device
      discovered.scanner.source = none) :
    BermudaDataUpdateCoordinator.process_discovered key registry matched c
        discovered = c.refresh_scanners registry matched ∧
    PreservesScanners c (c.refresh_scanners registry matched) ∧
    (discovered :: rest).foldl
        (BermudaDataUpdateCoordinator.process_discovered key registry matched)
        c =
      rest.foldl
        (BermudaDataUpdateCoordinator.process_discovered key registry matched)
        (c.refresh_scanners registry matched) := by
  have hstep : BermudaDataUpdateCoordinator.process_discovered key registry
      matched c discovered = c.refresh_scanners registry matched := by
    unfold BermudaDataUpdateCoordinator.process_discovered
    rw [h₀]
    dsimp only
    rw [h₁]
  refine ⟨hstep, pres_refresh_scanners c registry matched, ?_⟩
  rw [List.foldl_cons, hstep]

/-- **C7, witness.** The skip evaluated on a concrete registry missing the
referenced scanner. -/
theorem process_discovered_skips_unknown_scanner_witness :
    BermudaDataUpdateCoordinator.process_discovered "aa:bb:cc:dd:ee:ff" []
        [discoveredC7] coordC7 discoveredC7 =
      coordC7.refresh_scanners [] [discoveredC7] :=
  (process_discovered_skips_unknown_scanner "aa:bb:cc:dd:ee:ff" []
    [discoveredC7] coordC7 discoveredC7 [] (by rfl) (by rfl)).1

/-- **C7, counterexample.** The topology directory is empty — it has no entry
for the referenced scanner `"11:22:33:44:55:66"` — yet, because an ordinary
device record already exists under that source address, the sighting is
**not** skipped: the tracked device's scanners map goes from empty to holding
one observation under that scanner's key.  This refutes the claim as stated
(skipping conditioned on the directory alone). -/
theorem process_discovered_records_despite_missing_directory_entry :
    (alookup "aa:bb:cc:dd:ee:ff" coordC7b.devices).map
        (fun d => d.scanners.map Prod.fst) = some [] ∧
    (alookup "aa:bb:cc:dd:ee:ff"
        (BermudaDataUpdateCoordinator.process_discovered "aa:bb:cc:dd:ee:ff"
          [] [discoveredC7] coordC7b discoveredC7).devices).map
        (fun d => d.scanners.map Prod.fst) =
      some ["11:22:33:44:55:66"] := by
  constructor
  · rfl
  · have hkey : format_mac "11:22:33:44:55:66" = "11:22:33:44:55:66" := rfl
    norm_num [BermudaDataUpdateCoordinator.process_discovered,
      BermudaDataUpdateCoordinator.get_device, coordC7b, discoveredC7,
      deviceC7, strayRecordC7, BermudaDevice.add_scanner,
      BermudaDeviceScanner.build, alookup, update_at, aset, hkey]

end Bermuda
